import Mathlib

/-!
Verification of `src/components/tweet_replies_fetch_service.py`
(class `TweetRepliesFetchService`).

The Python code is shallowly embedded: JSON values are an inductive type,
the HTTP layer is abstracted as an outcome (network failure, or a response
whose body either parses to a JSON value or does not parse), Python
exceptions become an error type threaded through `Except`, and the
instance's mutable `self.replies` buffer becomes explicit state passed in
and returned.

Modelling notes, checked against the source line by line:
* `response.json()` on an unparseable body raises
  `requests.exceptions.JSONDecodeError`, which in every `requests` release
  since 2.27 (Jan 2022) is a subclass of `requests.RequestException`;
  the service's `except requests.RequestException` clause therefore
  catches it and returns `[]`.  The embedding models this as the
  `response none` case being caught.
* Python `"tweets" in replies_data` is key membership for a dict, element
  membership for a list, substring test for a str, and a `TypeError` for
  any other body (int, float, bool, None).
* `reply["id"]` is a `KeyError` when the dict lacks the key and a
  `TypeError` when `reply` is not a dict; `reply.get(k, d)` is an
  `AttributeError` when `reply` is not a dict.
* JSON numbers are modelled as `Int`; none of the verified properties
  depends on non-integral numbers.
* A JSON object is an association list; Python dicts obtained from
  `json.loads` have unique keys, and lookup returns the first match.
-/

set_option autoImplicit false

namespace TweetService

/-- A JSON value, as produced by `response.json()` / `json.loads`. -/
inductive Json where
  | null
  | bool (b : Bool)
  | num (n : Int)
  | str (s : String)
  | arr (xs : List Json)
  | obj (kvs : List (String × Json))

/-- Lookup in the association list backing a JSON object (first match). -/
def alistLookup : List (String × Json) → String → Option Json
  | [], _ => none
  | (k', v) :: rest, k => if k' = k then some v else alistLookup rest k

/-- Key lookup on a JSON value: `some` only for objects holding the key. -/
def Json.lookup : Json → String → Option Json
  | .obj kvs, k => alistLookup kvs k
  | _, _ => none

/-- Whether a JSON value is an object (a Python dict). -/
def Json.isObj : Json → Bool
  | .obj _ => true
  | _ => false

/-- The Python exceptions the service can raise past its `except` clause. -/
inductive PyErr where
  | keyError (k : String)
  | typeError
  | attrError
  deriving DecidableEq

@[simp] theorem except_bind_ok {ε α β : Type} (a : α) (f : α → Except ε β) :
    (Except.ok a >>= f) = f a := rfl

@[simp] theorem except_bind_error {ε α β : Type} (e : ε) (f : α → Except ε β) :
    ((Except.error e : Except ε α) >>= f) = Except.error e := rfl

@[simp] theorem except_map_ok {ε α β : Type} (g : α → β) (a : α) :
    (g <$> (Except.ok a : Except ε α)) = Except.ok (g a) := rfl

@[simp] theorem except_map_error {ε α β : Type} (g : α → β) (e : ε) :
    (g <$> ((Except.error e : Except ε α))) = (Except.error e : Except ε β) := rfl

@[simp] theorem except_pure {ε α : Type} (a : α) :
    (pure a : Except ε α) = Except.ok a := rfl

/-- Python subscript `j[k]` with a string key: value for a dict holding the
key, `KeyError` for a dict lacking it, `TypeError` for any non-dict. -/
def pySubscript (j : Json) (k : String) : Except PyErr Json :=
  match j with
  | .obj kvs =>
      match alistLookup kvs k with
      | some v => .ok v
      | none => .error (.keyError k)
  | _ => .error .typeError

/-- Python `j.get(k, d)`: only dicts have `.get`; any other value raises
`AttributeError`. -/
def pyGet (j : Json) (k : String) (d : Json) : Except PyErr Json :=
  match j with
  | .obj kvs => .ok ((alistLookup kvs k).getD d)
  | _ => .error .attrError

/-- Whether `pat` occurs as a contiguous run inside `hay`. -/
def hasSubList (pat : List Char) : List Char → Bool
  | [] => pat.isEmpty
  | c :: rest => pat.isPrefixOf (c :: rest) || hasSubList pat rest

/-- Substring test, for Python `k in s` on strings. -/
def strContainsSub (s pat : String) : Bool :=
  hasSubList pat.data s.data

/-- Python `k in j` for a string `k`: key membership for a dict, element
membership for a list (a string equals only an equal string), substring
test for a str, `TypeError` otherwise. -/
def pyContains (j : Json) (k : String) : Except PyErr Bool :=
  match j with
  | .obj kvs => .ok (alistLookup kvs k).isSome
  | .arr xs => .ok (xs.any fun x => match x with | .str s => s = k | _ => false)
  | .str s => .ok (strContainsSub s k)
  | _ => .error .typeError

/-- Outcome of `requests.request(...)` followed by `response.json()`:
either the request itself raised a `requests.RequestException`
(connection error, timeout), or a response arrived whose body parses to
`some` JSON value, or fails to parse (`none`). -/
inductive HttpResult where
  | netFail
  | response (body : Option Json)

/-- The `metrics` sub-dict of one reply record.  Field values are JSON
values: the source copies `reply.get("likes_count", 0)` etc. without
validating their type. -/
structure Metrics where
  likes : Json
  retweets : Json
  replies : Json

/-- One reply record (`reply_info` in the source). -/
structure ReplyInfo where
  reply_id : Json
  author_id : Json
  author_username : Json
  text : Json
  created_at : Json
  metrics : Metrics

/-- Building `reply_info` from one element of the `tweets` array, field by
field in the source's evaluation order:
`reply["id"]`, `reply.get("author_id")`,
`reply.get("author", {}).get("username")`, `reply["text"]`,
`reply.get("created_at")`, then the three metric counters with default 0. -/
def mapReply (reply : Json) : Except PyErr ReplyInfo := do
  let rid ← pySubscript reply "id"
  let aid ← pyGet reply "author_id" .null
  let author ← pyGet reply "author" (.obj [])
  let uname ← pyGet author "username" .null
  let txt ← pySubscript reply "text"
  let cat ← pyGet reply "created_at" .null
  let likes ← pyGet reply "likes_count" (.num 0)
  let rts ← pyGet reply "retweets_count" (.num 0)
  let rpls ← pyGet reply "replies_count" (.num 0)
  pure ⟨rid, aid, uname, txt, cat, ⟨likes, rts, rpls⟩⟩

/-- The record `mapReply` produces when it succeeds, written as a total
function of the entry's fields (related to `mapReply` by
`mapReply_wellFormed`). -/
def mapReplyOk (e : Json) : ReplyInfo :=
  { reply_id := (e.lookup "id").getD .null
    author_id := (e.lookup "author_id").getD .null
    author_username :=
      (Json.lookup ((e.lookup "author").getD (.obj [])) "username").getD .null
    text := (e.lookup "text").getD .null
    created_at := (e.lookup "created_at").getD .null
    metrics :=
      { likes := (e.lookup "likes_count").getD (.num 0)
        retweets := (e.lookup "retweets_count").getD (.num 0)
        replies := (e.lookup "replies_count").getD (.num 0) } }

/-- Evaluation of the guard
`if "tweets" in replies_data and isinstance(replies_data["tweets"], list)`:
`some entries` when it holds, `none` when it is false, `.error` when one of
its subexpressions raises. -/
def tweetsField (body : Json) : Except PyErr (Option (List Json)) := do
  let c ← pyContains body "tweets"
  if c then
    let v ← pySubscript body "tweets"
    match v with
    | .arr entries => pure (some entries)
    | _ => pure none
  else
    pure none

/-- The `for reply in replies_data["tweets"]` loop: appends the mapped
record of each entry to the buffer, stopping at the first entry whose
mapping raises; returns the raised error (if any) and the buffer state. -/
def loopReplies : List Json → List ReplyInfo → Except PyErr Unit × List ReplyInfo
  | [], buf => (.ok (), buf)
  | e :: rest, buf =>
      match mapReply e with
      | .ok info => loopReplies rest (buf ++ [info])
      | .error err => (.error err, buf)

/-- `TweetRepliesFetchService.get_tweet_replies`.  `s` is the value of
`self.replies` when the call starts (cleared immediately), `tweet_id` and
`max_replies` are the Python arguments (neither affects the result:
`tweet_id` only reaches the outgoing request and the log lines,
`max_replies` is never read), and `r` is the HTTP outcome.  Returns the
Python return value (or the propagated exception) paired with the value of
`self.replies` when the call ends. -/
def get_tweet_replies (s : List ReplyInfo) (tweet_id : String)
    (max_replies : Nat) (r : HttpResult) :
    Except PyErr (List ReplyInfo) × List ReplyInfo :=
  match s, tweet_id, max_replies, r with
  | _, _, _, .netFail => (.ok [], [])
  | _, _, _, .response none => (.ok [], [])
  | _, _, _, .response (some body) =>
      match tweetsField body with
      | .error e => (.error e, [])
      | .ok none => (.ok [], [])
      | .ok (some entries) =>
          match loopReplies entries [] with
          | (.ok _, buf) => (.ok buf, buf)
          | (.error e, buf) => (.error e, buf)

/-- The dict built by `get_replies_with_metadata`. -/
structure FetchResult where
  tweet_id : String
  total_replies_fetched : Nat
  fetch_timestamp : String
  replies : List ReplyInfo

/-- `TweetRepliesFetchService.get_replies_with_metadata`.  `fetch_ts` is
the string `datetime.now().isoformat()` produces at the call.  An
exception from `get_tweet_replies` propagates. -/
def get_replies_with_metadata (s : List ReplyInfo) (tweet_id : String)
    (max_replies : Nat) (r : HttpResult) (fetch_ts : String) :
    Except PyErr FetchResult × List ReplyInfo :=
  match get_tweet_replies s tweet_id max_replies r with
  | (.error e, buf) => (.error e, buf)
  | (.ok replies, buf) =>
      (.ok ⟨tweet_id, replies.length, fetch_ts, replies⟩, buf)

/-- JSON shape of one reply record, as `json.dump` serialises the
`reply_info` dict. -/
def ReplyInfo.toJson (ri : ReplyInfo) : Json :=
  .obj [("reply_id", ri.reply_id),
        ("author_id", ri.author_id),
        ("author_username", ri.author_username),
        ("text", ri.text),
        ("created_at", ri.created_at),
        ("metrics", .obj [("likes", ri.metrics.likes),
                          ("retweets", ri.metrics.retweets),
                          ("replies", ri.metrics.replies)])]

/-- JSON shape of the `final_output` dict that `json.dump` writes. -/
def FetchResult.toJson (fr : FetchResult) : Json :=
  .obj [("tweet_id", .str fr.tweet_id),
        ("total_replies_fetched", .num (Int.ofNat fr.total_replies_fetched)),
        ("fetch_timestamp", .str fr.fetch_timestamp),
        ("replies", .arr (fr.replies.map ReplyInfo.toJson))]

/-- Reading a `Metrics` record back out of its JSON shape. -/
def Metrics.fromJson (j : Json) : Option Metrics :=
  match j.lookup "likes", j.lookup "retweets", j.lookup "replies" with
  | some l, some r, some p => some ⟨l, r, p⟩
  | _, _, _ => none

/-- Reading a reply record back out of its JSON shape. -/
def ReplyInfo.fromJson (j : Json) : Option ReplyInfo :=
  match j.lookup "reply_id", j.lookup "author_id", j.lookup "author_username",
        j.lookup "text", j.lookup "created_at", j.lookup "metrics" with
  | some rid, some aid, some un, some tx, some ca, some mj =>
      match Metrics.fromJson mj with
      | some ms => some ⟨rid, aid, un, tx, ca, ms⟩
      | none => none
  | _, _, _, _, _, _ => none

/-- Reading a list of reply records back out of their JSON shapes. -/
def decodeReplies : List Json → Option (List ReplyInfo)
  | [] => some []
  | j :: rest =>
      match ReplyInfo.fromJson j, decodeReplies rest with
      | some ri, some rs => some (ri :: rs)
      | _, _ => none

/-- Reading a `FetchResult` back out of its JSON shape: what `json.load`
on the saved file yields, decoded. -/
def FetchResult.fromJson (j : Json) : Option FetchResult :=
  match j.lookup "tweet_id", j.lookup "total_replies_fetched",
        j.lookup "fetch_timestamp", j.lookup "replies" with
  | some (.str tid), some (.num n), some (.str ts), some (.arr items) =>
      match decodeReplies items with
      | some rs => some ⟨tid, n.toNat, ts, rs⟩
      | none => none
  | _, _, _, _ => none

/-- `TweetRepliesFetchService.save_replies_to_file`.  `gen_ts` is the
string `datetime.now().strftime(...)` produces when no filename is given.
The file write is modelled by returning, next to the path used, the JSON
value the written text parses back to (`json.dump` followed by `json.load`
is the identity on JSON-native values, which `final_output` is).  An
exception from the fetch propagates and no file is written. -/
def save_replies_to_file (s : List ReplyInfo) (tweet_id : String)
    (filename : Option String) (max_replies : Nat) (r : HttpResult)
    (fetch_ts gen_ts : String) :
    Except PyErr (String × Json) × List ReplyInfo :=
  let fname :=
    filename.getD ("replies_to_" ++ tweet_id ++ "_" ++ gen_ts ++ ".json")
  match get_replies_with_metadata s tweet_id max_replies r fetch_ts with
  | (.error e, buf) => (.error e, buf)
  | (.ok fr, buf) => (.ok (fname, fr.toJson), buf)

/-- A `tweets` entry on which `mapReply` succeeds: a dict holding `id` and
`text`, whose `author` field, when present, is itself a dict (the upstream
shape `author: {username?}`). -/
def wellFormed (e : Json) : Bool :=
  e.isObj && (e.lookup "id").isSome && (e.lookup "text").isSome &&
    (match e.lookup "author" with
     | some a => a.isObj
     | none => true)

/-- A `tweets` entry that is a dict but lacks a required field. -/
def missingRequired (e : Json) : Bool :=
  e.isObj && (!(e.lookup "id").isSome || !(e.lookup "text").isSome)

/-! ### Structural lemmas about the embedded operations -/

/-- On a well-formed entry, `mapReply` succeeds and produces exactly the
record `mapReplyOk` describes. -/
theorem mapReply_wellFormed (e : Json) (h : wellFormed e = true) :
    mapReply e = Except.ok (mapReplyOk e) := by
  cases e with
  | obj kvs =>
      simp only [wellFormed, Json.isObj, Bool.and_eq_true] at h
      obtain ⟨⟨⟨-, hid⟩, htext⟩, hauthor⟩ := h
      obtain ⟨vid, hvid⟩ := Option.isSome_iff_exists.mp hid
      obtain ⟨vtx, hvtx⟩ := Option.isSome_iff_exists.mp htext
      simp only [Json.lookup] at hvid hvtx hauthor
      cases ha : alistLookup kvs "author" with
      | none =>
          simp [mapReply, mapReplyOk, pySubscript, pyGet, Json.lookup,
            hvid, hvtx, ha, Except.bind]
      | some a =>
          rw [ha] at hauthor
          cases a with
          | obj akvs =>
              simp [mapReply, mapReplyOk, pySubscript, pyGet, Json.lookup,
                hvid, hvtx, ha, Except.bind]
          | null => simp [Json.isObj] at hauthor
          | bool b => simp [Json.isObj] at hauthor
          | num n => simp [Json.isObj] at hauthor
          | str s => simp [Json.isObj] at hauthor
          | arr xs => simp [Json.isObj] at hauthor
  | null => simp [wellFormed, Json.isObj] at h
  | bool b => simp [wellFormed, Json.isObj] at h
  | num n => simp [wellFormed, Json.isObj] at h
  | str s => simp [wellFormed, Json.isObj] at h
  | arr xs => simp [wellFormed, Json.isObj] at h

/-- When every entry is well-formed the loop appends every mapped record
in order and raises nothing. -/
theorem loopReplies_all_ok (entries : List Json) (buf : List ReplyInfo)
    (h : ∀ e ∈ entries, wellFormed e = true) :
    loopReplies entries buf = (Except.ok (), buf ++ entries.map mapReplyOk) := by
  induction entries generalizing buf with
  | nil => simp [loopReplies]
  | cons e rest ih =>
      have he : wellFormed e = true := h e (List.mem_cons_self e rest)
      have hrest : ∀ x ∈ rest, wellFormed x = true := fun x hx =>
        h x (List.mem_cons_of_mem e hx)
      simp [loopReplies, mapReply_wellFormed e he, ih _ hrest]

/-- When the entries before `bad` are well-formed and mapping `bad`
raises, the loop stops at `bad` with exactly the mapped records of the
entries before it in the buffer. -/
theorem loopReplies_stops (pre : List Json) (bad : Json) (rest : List Json)
    (buf : List ReplyInfo) (err : PyErr)
    (hpre : ∀ e ∈ pre, wellFormed e = true)
    (hbad : mapReply bad = Except.error err) :
    loopReplies (pre ++ bad :: rest) buf =
      (Except.error err, buf ++ pre.map mapReplyOk) := by
  induction pre generalizing buf with
  | nil => simp [loopReplies, hbad]
  | cons e tail ih =>
      have he : wellFormed e = true := hpre e (List.mem_cons_self e tail)
      have htail : ∀ x ∈ tail, wellFormed x = true := fun x hx =>
        hpre x (List.mem_cons_of_mem e hx)
      simp [loopReplies, mapReply_wellFormed e he, ih _ htail]

/-- A dict entry lacking `id` or `text` makes `mapReply` raise. -/
theorem mapReply_missingRequired (e : Json) (h : missingRequired e = true) :
    ∃ err, mapReply e = Except.error err := by
  cases e with
  | obj kvs =>
      simp only [missingRequired, Json.isObj, Bool.and_eq_true, true_and,
        Bool.or_eq_true, Bool.not_eq_true', Json.lookup] at h
      cases h with
      | inl hid =>
          have hid' : alistLookup kvs "id" = none := by
            rcases hval : alistLookup kvs "id" with _ | v
            · rfl
            · rw [hval] at hid; simp at hid
          exact ⟨.keyError "id", by simp [mapReply, pySubscript, hid']⟩
      | inr htx =>
          have htx' : alistLookup kvs "text" = none := by
            rcases hval : alistLookup kvs "text" with _ | v
            · rfl
            · rw [hval] at htx; simp at htx
          cases hid : alistLookup kvs "id" with
          | none =>
              exact ⟨.keyError "id",
                by simp [mapReply, pySubscript, hid]⟩
          | some vid =>
              cases ha : alistLookup kvs "author" with
              | none =>
                  exact ⟨.keyError "text",
                    by simp [mapReply, pySubscript, pyGet, hid, ha, htx']⟩
              | some a =>
                  cases a with
                  | obj akvs =>
                      exact ⟨.keyError "text",
                        by simp [mapReply, pySubscript, pyGet, hid, ha, htx']⟩
                  | null =>
                      exact ⟨.attrError,
                        by simp [mapReply, pySubscript, pyGet, hid, ha]⟩
                  | bool b =>
                      exact ⟨.attrError,
                        by simp [mapReply, pySubscript, pyGet, hid, ha]⟩
                  | num n =>
                      exact ⟨.attrError,
                        by simp [mapReply, pySubscript, pyGet, hid, ha]⟩
                  | str s =>
                      exact ⟨.attrError,
                        by simp [mapReply, pySubscript, pyGet, hid, ha]⟩
                  | arr xs =>
                      exact ⟨.attrError,
                        by simp [mapReply, pySubscript, pyGet, hid, ha]⟩
  | null => simp [missingRequired, Json.isObj] at h
  | bool b => simp [missingRequired, Json.isObj] at h
  | num n => simp [missingRequired, Json.isObj] at h
  | str s => simp [missingRequired, Json.isObj] at h
  | arr xs => simp [missingRequired, Json.isObj] at h

/-- If some entry of the list makes `mapReply` raise, the loop raises. -/
theorem loopReplies_hasError (entries : List Json) (buf : List ReplyInfo)
    (h : ∃ e ∈ entries, ∃ err, mapReply e = Except.error err) :
    ∃ err buf', loopReplies entries buf = (Except.error err, buf') := by
  induction entries generalizing buf with
  | nil => obtain ⟨e, he, -⟩ := h; exact absurd he (List.not_mem_nil e)
  | cons x rest ih =>
      cases hx : mapReply x with
      | error err => exact ⟨err, buf, by simp [loopReplies, hx]⟩
      | ok info =>
          obtain ⟨e, he, err, herr⟩ := h
          have hrest : e ∈ rest := by
            rcases List.mem_cons.mp he with rfl | hmem
            · rw [hx] at herr; exact absurd herr (by simp)
            · exact hmem
          obtain ⟨err', buf', hloop⟩ :=
            ih (buf ++ [info]) ⟨e, hrest, err, herr⟩
          exact ⟨err', buf', by simp [loopReplies, hx, hloop]⟩

/-- When the body is a dict whose `tweets` key holds an array, the guard
selects that array. -/
theorem tweetsField_arr (kvs : List (String × Json)) (entries : List Json)
    (h : alistLookup kvs "tweets" = some (Json.arr entries)) :
    tweetsField (Json.obj kvs) = Except.ok (some entries) := by
  simp [tweetsField, pyContains, pySubscript, h, Except.bind]

/-- When the body is a dict whose `tweets` key is absent or does not hold
an array, the guard is false. -/
theorem tweetsField_noArr (kvs : List (String × Json))
    (h : ∀ xs, alistLookup kvs "tweets" ≠ some (Json.arr xs)) :
    tweetsField (Json.obj kvs) = Except.ok none := by
  cases hv : alistLookup kvs "tweets" with
  | none => simp [tweetsField, pyContains, pySubscript, hv, Except.bind]
  | some v =>
      cases v with
      | arr xs => exact absurd hv (h xs)
      | null => simp [tweetsField, pyContains, pySubscript, hv, Except.bind]
      | bool b => simp [tweetsField, pyContains, pySubscript, hv, Except.bind]
      | num n => simp [tweetsField, pyContains, pySubscript, hv, Except.bind]
      | str s => simp [tweetsField, pyContains, pySubscript, hv, Except.bind]
      | obj kvs' => simp [tweetsField, pyContains, pySubscript, hv, Except.bind]

/-- Decoding one serialised reply record recovers it. -/
theorem replyInfo_fromJson_toJson (ri : ReplyInfo) :
    ReplyInfo.fromJson (ReplyInfo.toJson ri) = some ri := rfl

/-- Decoding a serialised list of reply records recovers it. -/
theorem decodeReplies_roundtrip (l : List ReplyInfo) :
    decodeReplies (l.map ReplyInfo.toJson) = some l := by
  induction l with
  | nil => rfl
  | cons x xs ih => simp [decodeReplies, replyInfo_fromJson_toJson, ih]

/-- Decoding a serialised `FetchResult` recovers it: the saved file's
parsed contents round-trip the structure `get_replies_with_metadata`
returned. -/
theorem fetchResult_fromJson_toJson (fr : FetchResult) :
    FetchResult.fromJson (FetchResult.toJson fr) = some fr := by
  cases fr with
  | mk tid total ts replies =>
      simp [FetchResult.toJson, FetchResult.fromJson, Json.lookup, alistLookup,
        decodeReplies_roundtrip]

/-- Sample data for witnesses: three well-formed reply entries. -/
def sampleReply1 : Json := .obj [("id", .str "1"), ("text", .str "hello")]

def sampleReply2 : Json := .obj [("id", .str "2"), ("text", .str "world")]

def sampleReply3 : Json := .obj [("id", .str "3"), ("text", .str "again")]

/-- Sample response body with three well-formed entries. -/
def sampleBody3 : Json :=
  .obj [("tweets", .arr [sampleReply1, sampleReply2, sampleReply3])]

/-- A dict entry lacking the required `id` field. -/
def badReplyNoId : Json := .obj [("text", .str "orphan")]

/-- The fetch result for `sampleBody3` with post id `"123"` at time
`"ts"`. -/
def sampleFetchResult : FetchResult :=
  ⟨"123", 3, "ts",
   [mapReplyOk sampleReply1, mapReplyOk sampleReply2, mapReplyOk sampleReply3]⟩

/-! ### The claims -/

/-- Claim C1: for a response whose body holds a `tweets` array of N
well-formed objects, `get_tweet_replies` returns exactly N records, the
record of each entry carries the entry's `id` as `reply_id` and its
`text` as `text` verbatim, and each metric counter is 0 when its source
field (`likes_count`, `retweets_count`, `replies_count`) is absent. -/
theorem C1_wellformed_entries_all_mapped (s : List ReplyInfo) (tid : String)
    (m : Nat) (kvs : List (String × Json)) (entries : List Json)
    (htw : alistLookup kvs "tweets" = some (Json.arr entries))
    (hwf : ∀ e ∈ entries, wellFormed e = true) :
    get_tweet_replies s tid m (.response (some (.obj kvs)))
        = (Except.ok (entries.map mapReplyOk), entries.map mapReplyOk)
    ∧ (entries.map mapReplyOk).length = entries.length
    ∧ ∀ e ∈ entries,
        (∀ v, e.lookup "id" = some v → (mapReplyOk e).reply_id = v)
        ∧ (∀ v, e.lookup "text" = some v → (mapReplyOk e).text = v)
        ∧ (e.lookup "likes_count" = none →
            (mapReplyOk e).metrics.likes = Json.num 0)
        ∧ (e.lookup "retweets_count" = none →
            (mapReplyOk e).metrics.retweets = Json.num 0)
        ∧ (e.lookup "replies_count" = none →
            (mapReplyOk e).metrics.replies = Json.num 0) := by
  refine ⟨?_, by simp, ?_⟩
  · simp [get_tweet_replies, tweetsField_arr kvs entries htw,
      loopReplies_all_ok entries [] hwf]
  · intro e he
    refine ⟨fun v hv => ?_, fun v hv => ?_, fun hv => ?_, fun hv => ?_,
      fun hv => ?_⟩ <;> simp [mapReplyOk, hv]

/-- Witness for C1 at a concrete three-entry response. -/
theorem C1_witness :
    get_tweet_replies [] "123" 100 (.response (some sampleBody3))
      = (Except.ok ([sampleReply1, sampleReply2, sampleReply3].map mapReplyOk),
         [sampleReply1, sampleReply2, sampleReply3].map mapReplyOk) :=
  (C1_wellformed_entries_all_mapped [] "123" 100
    [("tweets", .arr [sampleReply1, sampleReply2, sampleReply3])]
    [sampleReply1, sampleReply2, sampleReply3] (by rfl) (by decide)).1

/-- Claim C2: a network-layer failure (connection error, timeout) makes
`get_tweet_replies` return the empty list normally: no exception reaches
the caller. -/
theorem C2_network_failure_returns_empty (s : List ReplyInfo) (tid : String)
    (m : Nat) :
    get_tweet_replies s tid m HttpResult.netFail = (Except.ok [], []) := by
  cases s <;> rfl

/-- Claim C3 counterexample: on a response whose body is not valid JSON,
`get_tweet_replies` returns the empty list normally instead of letting
the parse failure propagate.  `response.json()` raises
`requests.exceptions.JSONDecodeError`, a subclass of
`requests.RequestException` since `requests` 2.27, so the service's
`except requests.RequestException` clause catches it. -/
theorem C3_counterexample :
    get_tweet_replies [] "tweet1" 100 (HttpResult.response none)
      = (Except.ok [], []) := rfl

/-- Claim C3 amended: on a response whose body is not valid JSON,
`get_tweet_replies` catches the decode failure together with the
network-layer failures and returns an empty sequence; nothing
propagates. -/
theorem C3_amended_unparseable_body_swallowed (s : List ReplyInfo)
    (tid : String) (m : Nat) :
    get_tweet_replies s tid m (HttpResult.response none)
      = (Except.ok [], []) := by
  cases s <;> rfl

/-- Claim C4: when the `tweets` array contains an entry lacking a
required field (`id` or `text`), `get_tweet_replies` propagates a
failure: the call raises instead of skipping the entry or returning a
partial list. -/
theorem C4_missing_required_field_propagates (s : List ReplyInfo)
    (tid : String) (m : Nat) (kvs : List (String × Json))
    (entries : List Json)
    (htw : alistLookup kvs "tweets" = some (Json.arr entries))
    (hmiss : ∃ e ∈ entries, missingRequired e = true) :
    ∃ err buf, get_tweet_replies s tid m (.response (some (.obj kvs)))
      = (Except.error err, buf) := by
  obtain ⟨e, he, hm⟩ := hmiss
  obtain ⟨err, herr⟩ := mapReply_missingRequired e hm
  obtain ⟨err', buf', hloop⟩ := loopReplies_hasError entries [] ⟨e, he, err, herr⟩
  exact ⟨err', buf',
    by simp [get_tweet_replies, tweetsField_arr kvs entries htw, hloop]⟩

/-- Witness for C4: a single entry with `text` but no `id`. -/
theorem C4_witness :
    ∃ err buf, get_tweet_replies [] "123" 100
        (.response (some (.obj [("tweets", .arr [badReplyNoId])])))
      = (Except.error err, buf) :=
  C4_missing_required_field_propagates [] "123" 100
    [("tweets", .arr [badReplyNoId])] [badReplyNoId] (by rfl) (by decide)

/-- Claim C5 counterexample: a body that parses to the JSON number `5`
lacks the `tweets` key, yet `get_tweet_replies` does not return an empty
sequence: Python `"tweets" in 5` raises `TypeError`, which is not a
`requests.RequestException`, so it propagates. -/
theorem C5_counterexample :
    get_tweet_replies [] "tweet1" 100 (HttpResult.response (some (Json.num 5)))
      = (Except.error PyErr.typeError, []) := rfl

/-- Claim C5 amended: for a response whose body parses as a JSON object
(a dict) that lacks the `tweets` key or whose `tweets` value is not an
array, `get_tweet_replies` returns an empty sequence.  (For a non-dict
body such as a number, boolean or null, the membership test itself
raises `TypeError`, which propagates.) -/
theorem C5_amended_dict_without_tweets_array (s : List ReplyInfo)
    (tid : String) (m : Nat) (kvs : List (String × Json))
    (h : ∀ xs, alistLookup kvs "tweets" ≠ some (Json.arr xs)) :
    get_tweet_replies s tid m (.response (some (.obj kvs)))
      = (Except.ok [], []) := by
  simp [get_tweet_replies, tweetsField_noArr kvs h]

/-- Witness for the amended C5 at the empty dict `{}`. -/
theorem C5_witness :
    get_tweet_replies [] "123" 100 (.response (some (Json.obj [])))
      = (Except.ok [], []) :=
  C5_amended_dict_without_tweets_array [] "123" 100 []
    (fun _ hx => Option.noConfusion hx)

/-- Claim C6: whenever `get_replies_with_metadata` returns a result, its
`total_replies_fetched` equals the length of its `replies`, and those
`replies` are exactly what the underlying `get_tweet_replies` call
returned. -/
theorem C6_total_equals_length (s : List ReplyInfo) (tid : String) (m : Nat)
    (r : HttpResult) (ts : String) (fr : FetchResult) (buf : List ReplyInfo)
    (h : get_replies_with_metadata s tid m r ts = (Except.ok fr, buf)) :
    fr.total_replies_fetched = fr.replies.length
    ∧ (get_tweet_replies s tid m r).1 = Except.ok fr.replies := by
  rcases hg : get_tweet_replies s tid m r with ⟨res, b⟩
  unfold get_replies_with_metadata at h
  rw [hg] at h
  cases res with
  | error e => simp at h
  | ok replies =>
      simp only [Prod.mk.injEq, Except.ok.injEq] at h
      obtain ⟨hfr, hbuf⟩ := h
      subst hfr
      exact ⟨rfl, by simp⟩

/-- Witness for C6 at the three-entry sample response. -/
theorem C6_witness :
    sampleFetchResult.total_replies_fetched = sampleFetchResult.replies.length
    ∧ (get_tweet_replies [] "123" 100
        (HttpResult.response (some sampleBody3))).1
          = Except.ok sampleFetchResult.replies :=
  C6_total_equals_length [] "123" 100 (HttpResult.response (some sampleBody3))
    "ts" sampleFetchResult sampleFetchResult.replies (by rfl)

/-- Claim C7: on a well-formed `tweets` array the returned sequence
preserves the upstream order: the i-th record is the mapping of the i-th
entry, with no re-sorting, insertion, or omission. -/
theorem C7_order_preserved (s : List ReplyInfo) (tid : String) (m : Nat)
    (kvs : List (String × Json)) (entries : List Json)
    (htw : alistLookup kvs "tweets" = some (Json.arr entries))
    (hwf : ∀ e ∈ entries, wellFormed e = true) :
    ∃ l, (get_tweet_replies s tid m (.response (some (.obj kvs)))).1
          = Except.ok l
      ∧ l.length = entries.length
      ∧ ∀ (i : Nat) (hi : i < entries.length) (hl : i < l.length),
          l.get ⟨i, hl⟩ = mapReplyOk (entries.get ⟨i, hi⟩) := by
  refine ⟨entries.map mapReplyOk, ?_, by simp, ?_⟩
  · simp [get_tweet_replies, tweetsField_arr kvs entries htw,
      loopReplies_all_ok entries [] hwf]
  · intro i hi hl
    simp [List.get_eq_getElem, List.getElem_map]

/-- Witness for C7 at the three-entry sample response. -/
theorem C7_witness :
    ∃ l, (get_tweet_replies [] "123" 100
            (.response (some sampleBody3))).1 = Except.ok l
      ∧ l.length = [sampleReply1, sampleReply2, sampleReply3].length
      ∧ ∀ (i : Nat)
          (hi : i < [sampleReply1, sampleReply2, sampleReply3].length)
          (hl : i < l.length),
          l.get ⟨i, hl⟩
            = mapReplyOk ([sampleReply1, sampleReply2, sampleReply3].get ⟨i, hi⟩) :=
  C7_order_preserved [] "123" 100
    [("tweets", .arr [sampleReply1, sampleReply2, sampleReply3])]
    [sampleReply1, sampleReply2, sampleReply3] (by rfl) (by decide)

/-- Claim C8: for a fixed state, post id and response the result of
`get_tweet_replies` does not depend on `max_replies` (the parameter is
never read), and the returned count is not bounded by it: with
`max_replies = 1` the three-entry sample response still yields three
records. -/
theorem C8_max_replies_has_no_effect :
    (∀ (s : List ReplyInfo) (tid : String) (r : HttpResult) (m m' : Nat),
        get_tweet_replies s tid m r = get_tweet_replies s tid m' r)
    ∧ (∃ l, get_tweet_replies [] "123" 1 (HttpResult.response (some sampleBody3))
          = (Except.ok l, l) ∧ 1 < l.length) := by
  constructor
  · intro s tid r m m'
    cases r with
    | netFail => rfl
    | response body =>
        cases body with
        | none => rfl
        | some b => rfl
  · exact ⟨[mapReplyOk sampleReply1, mapReplyOk sampleReply2,
      mapReplyOk sampleReply3], rfl, by simp⟩

/-- Claim C9: `save_replies_to_file` with no filename uses a generated
path containing the post id, writes the fetch result's JSON shape to it,
returns that path, and the written JSON decodes back to exactly the
structure `get_replies_with_metadata` produced. -/
theorem C9_save_default_filename (s : List ReplyInfo) (tid : String)
    (m : Nat) (r : HttpResult) (fts gts : String) (fr : FetchResult)
    (buf : List ReplyInfo)
    (h : get_replies_with_metadata s tid m r fts = (Except.ok fr, buf)) :
    save_replies_to_file s tid none m r fts gts
        = (Except.ok ("replies_to_" ++ tid ++ "_" ++ gts ++ ".json",
            fr.toJson), buf)
    ∧ (∃ p q, ("replies_to_" ++ tid ++ "_" ++ gts ++ ".json")
          = p ++ tid ++ q)
    ∧ FetchResult.fromJson fr.toJson = some fr := by
  refine ⟨?_, ⟨"replies_to_", "_" ++ gts ++ ".json",
    by simp [String.append_assoc]⟩, fetchResult_fromJson_toJson fr⟩
  simp [save_replies_to_file, h]

/-- Witness for C9 at the three-entry sample response. -/
theorem C9_witness :
    save_replies_to_file [] "123" none 100
        (HttpResult.response (some sampleBody3)) "ts" "20250101"
      = (Except.ok ("replies_to_" ++ "123" ++ "_" ++ "20250101" ++ ".json",
          sampleFetchResult.toJson), sampleFetchResult.replies) :=
  (C9_save_default_filename [] "123" 100
    (HttpResult.response (some sampleBody3)) "ts" "20250101"
    sampleFetchResult sampleFetchResult.replies (by rfl)).1

/-- Claim C10: when the first malformed entry of the `tweets` array sits
at index k (after k well-formed entries), the call aborts
non-atomically: it raises, and `self.replies` is left holding exactly
the k records mapped from the entries before it — so the instance state
after the error differs from the pre-call state whenever that state was
not already this very prefix. -/
theorem C10_partial_buffer_on_abort (s : List ReplyInfo) (tid : String)
    (m : Nat) (kvs : List (String × Json)) (pre : List Json) (bad : Json)
    (rest : List Json)
    (htw : alistLookup kvs "tweets" = some (Json.arr (pre ++ bad :: rest)))
    (hpre : ∀ e ∈ pre, wellFormed e = true)
    (hbad : missingRequired bad = true) :
    (∃ err, get_tweet_replies s tid m (.response (some (.obj kvs)))
        = (Except.error err, pre.map mapReplyOk))
    ∧ (s ≠ pre.map mapReplyOk →
        (get_tweet_replies s tid m (.response (some (.obj kvs)))).2 ≠ s) := by
  obtain ⟨err, herr⟩ := mapReply_missingRequired bad hbad
  have hloop := loopReplies_stops pre bad rest [] err hpre herr
  have hmain : get_tweet_replies s tid m (.response (some (.obj kvs)))
      = (Except.error err, pre.map mapReplyOk) := by
    simp [get_tweet_replies, tweetsField_arr _ _ htw, hloop]
  refine ⟨⟨err, hmain⟩, fun hne => ?_⟩
  rw [hmain]
  exact fun hc => hne hc.symm

/-- Witness for C10: one well-formed entry followed by one lacking
`id`. -/
theorem C10_witness :
    (∃ err, get_tweet_replies [] "123" 100
        (.response (some (.obj [("tweets", .arr [sampleReply1, badReplyNoId])])))
      = (Except.error err, [sampleReply1].map mapReplyOk))
    ∧ (([] : List ReplyInfo) ≠ [sampleReply1].map mapReplyOk →
        (get_tweet_replies [] "123" 100
          (.response (some (.obj [("tweets",
            .arr [sampleReply1, badReplyNoId])])))).2 ≠ ([] : List ReplyInfo)) :=
  C10_partial_buffer_on_abort [] "123" 100
    [("tweets", .arr [sampleReply1, badReplyNoId])]
    [sampleReply1] badReplyNoId [] (by rfl) (by decide) (by decide)

end TweetService
